import Mathlib

/-!
Verification of the Token-Based Session Authority core of this repository.

The repository's only executable auth logic under source control is the
Express `authMiddleware` snippet (Experiment-10 Readme), which extracts a
bearer token from the Authorization header, and the servlet cart-retrieval
snippet (Experiment-15 Readme).  Those are embedded faithfully below.  The
remaining components — token issuer/verifier, credential hasher, session
store contract, revocation set, access policy gate — exist in the
repository only through the specification document, so they are modelled
from the spec, each such definition marked `Modelled from the spec:`.
-/

/-! ## Auth middleware (embedded from the source snippet)

JavaScript source, Experiment-10 Readme:
  const token = req.header('Authorization')?.replace('Bearer ', '');
  if (!token) return res.status(401).json(... 'Access denied. No token provided.');
  ... rest of verification logic
-/

/-- Tests whether the pattern (first argument) occurs at the head of the
second list, mirroring a character-by-character prefix test. -/
def headMatches : List Char → List Char → Bool
  | [], _ => true
  | _ :: _, [] => false
  | p :: ps, c :: cs => p == c && headMatches ps cs

/-- Removes the first occurrence of the pattern from the list, leaving the
list unchanged when the pattern does not occur: the semantics of
JavaScript String.replace with a string pattern and empty replacement. -/
def replaceFirstChars (pat : List Char) : List Char → List Char
  | [] => []
  | c :: cs =>
    if headMatches pat (c :: cs) then (c :: cs).drop pat.length
    else c :: replaceFirstChars pat cs

/-- JavaScript s.replace(pat, ...) with the empty string as replacement:
only the first occurrence of pat is removed. -/
def jsReplaceFirst (s pat : String) : String :=
  String.mk (replaceFirstChars pat.data s.data)

/-- Outcome of the middleware's extraction step: either the 401
"Access denied. No token provided." response, or the extracted token
string handed on to the verification logic. -/
inductive MwResult where
  | noToken
  | proceed (token : String)
deriving DecidableEq

/-- The authMiddleware extraction from the source: reads the Authorization
header (None models an absent header), removes the first occurrence of
"Bearer " from its value, and rejects with the 401 response exactly when
the resulting token string is empty or the header was absent (the
JavaScript truthiness test !token). -/
def authMiddleware (authHeader : Option String) : MwResult :=
  match authHeader with
  | none => MwResult.noToken
  | some h =>
    let token := jsReplaceFirst h "Bearer "
    if token = "" then MwResult.noToken else MwResult.proceed token

/-! ## Token issuer / verifier -/

/-- Modelled from the spec: the token payload of §4.2/§3 — the claimed
principal id, issued-at time and absolute expiry timestamp.  The real
jsonwebtoken implementation is not under source control. -/
structure Payload where
  pid : String
  iat : Nat
  exp : Nat
deriving DecidableEq

/-- Modelled from the spec: an idealized message-authentication value.  The
signature is treated symbolically as an opaque record determined exactly
by the signed payload and the server key, so distinct payloads or keys
yield distinct signatures (ideal MAC). -/
structure Sig where
  signedPayload : Payload
  signedKey : Nat
deriving DecidableEq

/-- Modelled from the spec: a token carries its payload and a signature
over that payload. -/
structure Token where
  payload : Payload
  sig : Sig
deriving DecidableEq

/-- Modelled from the spec: the client-facing authentication error kinds
of §4.2/§7, plus the revocation failure of §4.2. -/
inductive AuthError where
  | Malformed
  | BadSignature
  | Expired
  | Revoked
deriving DecidableEq

/-- Modelled from the spec: computing the signature over a payload with
the server-held secret key. -/
def signature (key : Nat) (p : Payload) : Sig :=
  { signedPayload := p, signedKey := key }

/-- Modelled from the spec: issue(principalId, ttl) binds the principal id
and the absolute expiry now + ttl, and signs the payload with the server
key. -/
def issue (key : Nat) (pid : String) (ttl : Nat) (now : Nat) : Token :=
  let p : Payload := { pid := pid, iat := now, exp := now + ttl }
  { payload := p, sig := signature key p }

/-- Modelled from the spec: verify(token) recomputes the signature from
the claimed payload and compares; BadSignature on mismatch, Expired when
now >= expiry, and the signature check precedes the expiry check, which
precedes any use of the claimed principal id. -/
def verifyToken (key : Nat) (now : Nat) (t : Token) : Except AuthError String :=
  if t.sig ≠ signature key t.payload then Except.error AuthError.BadSignature
  else if t.payload.exp ≤ now then Except.error AuthError.Expired
  else Except.ok t.payload.pid

/-! ## Revocation -/

/-- Modelled from the spec: the revocation set of §3/§4.2 keyed by the
token's unique identity; the payload (principal id, issued-at, expiry)
identifies a token here.  revoke(token) adds the token's id to the set. -/
def revoke (r : Finset Payload) (t : Token) : Finset Payload :=
  insert t.payload r

/-- Modelled from the spec: pruning the revocation set removes a token id
only after its natural expiry passes — entries whose expiry is still in
the future are kept. -/
def pruneRevoked (now : Nat) (r : Finset Payload) : Finset Payload :=
  r.filter (fun q => now < q.exp)

/-- Modelled from the spec: the operations that touch the revocation set
over time — revoking some token and the periodic expiry-based prune. -/
inductive RevOp where
  | rev (t : Token)
  | sweep (now : Nat)

/-- One revocation-set operation. -/
def revStep (r : Finset Payload) : RevOp → Finset Payload
  | RevOp.rev t => revoke r t
  | RevOp.sweep now => pruneRevoked now r

/-- A sequence of revocation-set operations applied in order. -/
def revRun (r : Finset Payload) (ops : List RevOp) : Finset Payload :=
  ops.foldl revStep r

/-- Modelled from the spec: verification in the presence of a revocation
set — a token is valid iff its signature verifies, the current time is
before its expiry, and its id is not revoked. -/
def verifyTokenR (key : Nat) (now : Nat) (r : Finset Payload) (t : Token) :
    Except AuthError String :=
  if t.sig ≠ signature key t.payload then Except.error AuthError.BadSignature
  else if t.payload.exp ≤ now then Except.error AuthError.Expired
  else if t.payload ∈ r then Except.error AuthError.Revoked
  else Except.ok t.payload.pid

/-! ## Credential hasher -/

/-- Modelled from the spec: an idealized digest produced by the one-way
hash, determined exactly by the hashed secret and the salt (random-oracle
style: distinct secrets give distinct digests under the same salt).  The
real bcrypt implementation is not under source control. -/
structure HashVal where
  digestOfSecret : String
  digestSalt : Nat
deriving DecidableEq

/-- Modelled from the spec: the salted one-way hash underlying
hash(secret) and verify. -/
def hashFn (secret : String) (salt : Nat) : HashVal :=
  { digestOfSecret := secret, digestSalt := salt }

/-- Modelled from the spec: hash(secret) generates a fresh salt (modelled
as an input) and returns the digest together with the salt. -/
def hashSecret (secret : String) (salt : Nat) : HashVal × Nat :=
  (hashFn secret salt, salt)

/-- Modelled from the spec: verify(secret, hashValue, salt) recomputes the
digest and compares; it is total, returning false on mismatch rather than
throwing. -/
def verifySecret (secret : String) (hv : HashVal) (salt : Nat) : Bool :=
  decide (hashFn secret salt = hv)

/-! ## Session store

The cart-retrieval path is embedded from the Experiment-15 Readme's
CartServlet snippet:
  HttpSession session = request.getSession(true); // Create if doesn't exist
  List<CartItem> cart = (List<CartItem>) session.getAttribute("cart");
  if (cart == null) ... cart = new ArrayList<>(); session.setAttribute("cart", cart);
The store contract (upsert, clear) follows §4.3 of the spec.
-/

/-- A cart line: the item identifier and quantity pair of the spec's
session-state payload. -/
structure CartItem where
  item : String
  qty : Nat
deriving DecidableEq

/-- The per-principal session store: principal id to current cart, none
when no entry exists. -/
def SessionStore : Type := String → Option (List CartItem)

/-- Modelled from the spec: get(principalId) returns the current state or
empty if none exists yet — an Option, not an error. -/
def storeGet (store : SessionStore) (p : String) : Option (List CartItem) :=
  store p

/-- The servlet cart-retrieval path from the source snippet: reading the
cart creates the session when absent (getSession(true)) and materializes
an empty cart attribute when none exists, returning the cart together
with the store after the read. -/
def sessionCartGet (store : SessionStore) (p : String) :
    List CartItem × SessionStore :=
  match store p with
  | some cart => (cart, store)
  | none => ([], fun q => if q = p then some [] else store q)

/-- Modelled from the spec: upsert(principalId, mutatorFn) atomically
reads the current state (or the empty default), applies the mutator and
writes the result back; the spec serializes concurrent upserts for the
same principal, so an execution is a sequence of these atomic steps. -/
def upsert (store : SessionStore) (p : String) (f : List CartItem → List CartItem) :
    SessionStore :=
  fun q => if q = p then some (f ((store p).getD [])) else store q

/-- Modelled from the spec: clear(principalId) removes the entry. -/
def storeClear (store : SessionStore) (p : String) : SessionStore :=
  fun q => if q = p then none else store q

/-- A batch of per-principal mutations applied in their serialized order. -/
def upsertAll (store : SessionStore) (p : String)
    (fs : List (List CartItem → List CartItem)) : SessionStore :=
  fs.foldl (fun st f => upsert st p f) store

/-- The cart-addition mutator of the repository's cart endpoints: bump the
quantity when the item is already present, otherwise append the line. -/
def addItem (it : String) (q : Nat) (cart : List CartItem) : List CartItem :=
  if cart.any (fun ci => ci.item == it) then
    cart.map (fun ci => if ci.item == it then { item := ci.item, qty := ci.qty + q } else ci)
  else cart ++ [{ item := it, qty := q }]

/-- Membership of an item name in a cart. -/
def cartHas (cart : List CartItem) (it : String) : Bool :=
  cart.any (fun ci => ci.item == it)

/-! ## Access policy gate and request pipeline -/

/-- Modelled from the spec: the client-visible outcome of a guarded
request — success, the 401 unauthenticated rejection, or the 403
forbidden rejection. -/
inductive Response where
  | ok (pid : String)
  | unauthenticated
  | forbidden
deriving DecidableEq

/-- HTTP-equivalent status code of each outcome. -/
def statusOf : Response → Nat
  | Response.ok _ => 200
  | Response.unauthenticated => 401
  | Response.forbidden => 403

/-- Modelled from the spec: authorize(principalId, operation,
resourceOwnerId) permits an operation on a per-principal resource iff the
principal owns the resource or holds an elevated role (role data read
from the principal record, modelled as a lookup). -/
def authorize (roles : String → Bool) (pid : String) (op : String) (owner : String) : Bool :=
  decide (pid = owner) || roles pid

/-- Modelled from the spec: the guarded request pipeline of §4.4/§4.5 —
missing credential rejects 401, a failed verification rejects 401, and an
authenticated principal denied by the policy gate receives 403. -/
def handleResource (key : Nat) (now : Nat) (roles : String → Bool)
    (cred : Option Token) (op : String) (owner : String) : Response :=
  match cred with
  | none => Response.unauthenticated
  | some t =>
    match verifyToken key now t with
    | Except.error _ => Response.unauthenticated
    | Except.ok pid =>
      if authorize roles pid op owner then Response.ok pid else Response.forbidden

/-- Whether a verification outcome is a rejection. -/
def rejects : Except AuthError String → Bool
  | Except.ok _ => false
  | Except.error _ => true

/-- HTTP-equivalent status produced by each middleware extraction
outcome: the no-token path answers 401. -/
def mwStatus : MwResult → Nat
  | MwResult.noToken => 401
  | MwResult.proceed _ => 200

/-! ## Theorems -/

/-- Claim C1: for every issued token with ttl d, verification succeeds with
the bound principal id at any check time strictly before issue time + d,
and fails with Expired at any check time at or after issue time + d. -/
theorem c1_issue_verify_ttl (key : Nat) (pid : String) (ttl t0 now : Nat) :
    (now < t0 + ttl →
      verifyToken key now (issue key pid ttl t0) = Except.ok pid) ∧
    (t0 + ttl ≤ now →
      verifyToken key now (issue key pid ttl t0) = Except.error AuthError.Expired) := by
  constructor
  · intro h
    simp [verifyToken, issue, signature]
    omega
  · intro h
    simp [verifyToken, issue, signature]
    omega

/-- Claim C1 witness at a concrete token: issued at time 0 with ttl 10,
valid at time 5 and expired at time 10. -/
theorem c1_issue_verify_ttl_witness :
    verifyToken 7 5 (issue 7 "u1" 10 0) = Except.ok "u1" ∧
    verifyToken 7 10 (issue 7 "u1" 10 0) = Except.error AuthError.Expired :=
  ⟨(c1_issue_verify_ttl 7 "u1" 10 0 5).1 (by decide),
   (c1_issue_verify_ttl 7 "u1" 10 0 10).2 (by decide)⟩

/-- Claim C2: any token whose signature does not verify against the server
key fails with BadSignature at every check time — in particular even when
it is also expired, since the signature check precedes the expiry check —
and altering either the payload or the signature of a validly issued
token (keeping the other part) yields BadSignature. -/
theorem c2_bad_signature_precedes_expiry (key now : Nat) (t : Token)
    (pid : String) (ttl t0 : Nat) (alt : Token) :
    (t.sig ≠ signature key t.payload →
      verifyToken key now t = Except.error AuthError.BadSignature) ∧
    ((alt.payload ≠ (issue key pid ttl t0).payload ∧ alt.sig = (issue key pid ttl t0).sig) ∨
     (alt.payload = (issue key pid ttl t0).payload ∧ alt.sig ≠ (issue key pid ttl t0).sig) →
      verifyToken key now alt = Except.error AuthError.BadSignature) := by
  constructor
  · intro h
    simp [verifyToken, h]
  · intro h
    rcases h with ⟨hp, hs⟩ | ⟨hp, hs⟩
    · have : alt.sig ≠ signature key alt.payload := by
        rw [hs]
        simp [issue, signature, Sig.mk.injEq]
        intro h2
        exact hp (by simp [issue]; exact h2.symm)
      simp [verifyToken, this]
    · have : alt.sig ≠ signature key alt.payload := by
        rw [hp]
        simpa [issue, signature] using hs
      simp [verifyToken, this]

/-- Claim C2 witness: a token signed under a different key fails with
BadSignature, and a validly issued token whose principal id was tampered
with (signature kept) fails with BadSignature, both at a check time past
expiry. -/
theorem c2_bad_signature_precedes_expiry_witness :
    verifyToken 7 99
      { payload := { pid := "u1", iat := 0, exp := 10 },
        sig := signature 8 { pid := "u1", iat := 0, exp := 10 } } =
      Except.error AuthError.BadSignature ∧
    verifyToken 7 99
      { payload := { pid := "u2", iat := 0, exp := 10 },
        sig := (issue 7 "u1" 10 0).sig } =
      Except.error AuthError.BadSignature :=
  ⟨(c2_bad_signature_precedes_expiry 7 99
      { payload := { pid := "u1", iat := 0, exp := 10 },
        sig := signature 8 { pid := "u1", iat := 0, exp := 10 } } "u1" 10 0
      { payload := { pid := "u1", iat := 0, exp := 10 },
        sig := signature 8 { pid := "u1", iat := 0, exp := 10 } }).1 (by decide),
   (c2_bad_signature_precedes_expiry 7 99
      { payload := { pid := "u1", iat := 0, exp := 10 },
        sig := signature 8 { pid := "u1", iat := 0, exp := 10 } } "u1" 10 0
      { payload := { pid := "u2", iat := 0, exp := 10 },
        sig := (issue 7 "u1" 10 0).sig }).2 (Or.inl ⟨by decide, by decide⟩)⟩

/-- Claim C3: verifying a secret against its own salted hash succeeds,
verifying a different secret against that hash returns false (and does
not throw: the checker is a total boolean function). -/
theorem c3_hash_verify_roundtrip (s s1 s2 : String) (salt : Nat) :
    (verifySecret s (hashSecret s salt).1 (hashSecret s salt).2 = true) ∧
    (s1 ≠ s2 → verifySecret s1 (hashSecret s2 salt).1 (hashSecret s2 salt).2 = false) := by
  constructor
  · simp [verifySecret, hashSecret]
  · intro h
    simp [verifySecret, hashSecret, hashFn, HashVal.mk.injEq]
    intro h2
    exact absurd h2 h

/-- Claim C3 witness at concrete secrets: pw123 verifies against its own
hash and pw124 does not. -/
theorem c3_hash_verify_roundtrip_witness :
    verifySecret "pw123" (hashSecret "pw123" 10).1 (hashSecret "pw123" 10).2 = true ∧
    verifySecret "pw124" (hashSecret "pw123" 10).1 (hashSecret "pw123" 10).2 = false :=
  ⟨(c3_hash_verify_roundtrip "pw123" "pw124" "pw123" 10).1,
   (c3_hash_verify_roundtrip "pw123" "pw124" "pw123" 10).2 (by decide)⟩

/-- Claim C4: a request with no Authorization header is rejected by the
middleware with the 401 no-token response before any verification logic
runs — the guarded pipeline answers Unauthenticated for every key, time,
role assignment and resource, showing the rejection is terminal and
independent of the verifier. -/
theorem c4_absent_credential_rejected :
    authMiddleware none = MwResult.noToken ∧
    mwStatus (authMiddleware none) = 401 ∧
    ∀ (key now : Nat) (roles : String → Bool) (op owner : String),
      handleResource key now roles none op owner = Response.unauthenticated ∧
      statusOf (handleResource key now roles none op owner) = 401 := by
  refine ⟨rfl, rfl, ?_⟩
  intro key now roles op owner
  exact ⟨rfl, rfl⟩

/-- A token issued under the server key verifies to its principal before
expiry. -/
theorem verify_issue_ok (key : Nat) (pid : String) (ttl t0 now : Nat)
    (h : now < t0 + ttl) :
    verifyToken key now (issue key pid ttl t0) = Except.ok pid := by
  simp [verifyToken, issue, signature]
  omega

/-- Claim C5: the policy gate permits an operation exactly when the
principal owns the resource or holds an elevated role, and an
authenticated principal denied by the gate receives Forbidden (403) —
distinct from Unauthenticated (401): a valid token of one principal used
on another principal's resource answers Forbidden, never Unauthenticated. -/
theorem c5_policy_gate_owner_or_elevated (roles : String → Bool) (pid op owner : String) :
    (authorize roles pid op owner = true ↔ (pid = owner ∨ roles pid = true)) ∧
    (∀ (key t0 ttl now : Nat) (u1 u2 op2 : String),
      roles u1 = false → u1 ≠ u2 → now < t0 + ttl →
      handleResource key now roles (some (issue key u1 ttl t0)) op2 u2 = Response.forbidden) ∧
    statusOf Response.forbidden = 403 ∧
    Response.forbidden ≠ Response.unauthenticated := by
  refine ⟨?_, ?_, rfl, by decide⟩
  · simp [authorize]
  · intro key t0 ttl now u1 u2 op2 hrole hne hlt
    simp [handleResource, verify_issue_ok key u1 ttl t0 now hlt, authorize, hrole, hne]

/-- Claim C5 witness: principal u1 with a valid non-elevated token
requesting u2's resource receives Forbidden. -/
theorem c5_policy_gate_owner_or_elevated_witness :
    handleResource 7 5 (fun _ => false) (some (issue 7 "u1" 10 0)) "getCart" "u2" =
      Response.forbidden :=
  (c5_policy_gate_owner_or_elevated (fun _ => false) "u1" "getCart" "u2").2.1
    7 0 10 5 "u1" "u2" "getCart" rfl (by decide) (by decide)

/-- Quantity updates inside a cart do not change which item names the
cart contains. -/
theorem any_item_map_bump (c : List CartItem) (it x : String) (q : Nat) :
    (c.map (fun ci =>
        if ci.item == it then { item := ci.item, qty := ci.qty + q } else ci)).any
      (fun ci => ci.item == x) = c.any (fun ci => ci.item == x) := by
  induction c with
  | nil => rfl
  | cons hd tl ih =>
    simp only [List.map_cons, List.any_cons, ih]
    cases h : hd.item == it <;> simp [h]

/-- Adding an item puts that item in the cart. -/
theorem cartHas_addItem_self (c : List CartItem) (it : String) (q : Nat) :
    cartHas (addItem it q c) it = true := by
  unfold cartHas addItem
  cases h : c.any (fun ci => ci.item == it) with
  | true =>
    rw [if_pos rfl, any_item_map_bump]
    exact h
  | false =>
    rw [if_neg (by simp), List.any_append]
    simp

/-- Adding an item never removes another item from the cart. -/
theorem cartHas_addItem_mono (c : List CartItem) (it x : String) (q : Nat)
    (h : cartHas c x = true) : cartHas (addItem it q c) x = true := by
  unfold cartHas at h
  unfold cartHas addItem
  cases hc : c.any (fun ci => ci.item == it) with
  | true =>
    rw [if_pos rfl, any_item_map_bump]
    exact h
  | false =>
    rw [if_neg (by simp), List.any_append, h]
    simp

/-- Claim C6: per-principal mutations are serialized, so a batch of
upserts issued concurrently executes as some serial order of the
mutators; in particular two cart additions for the same principal both
survive in either execution order — no lost updates. -/
theorem c6_upsert_serializable (store : SessionStore) (p : String)
    (fs : List (List CartItem → List CartItem)) :
    (∃ serial, List.Perm serial fs ∧ upsertAll store p fs = upsertAll store p serial) ∧
    cartHas ((upsertAll store p [addItem "A" 1, addItem "B" 1] p).getD []) "A" = true ∧
    cartHas ((upsertAll store p [addItem "A" 1, addItem "B" 1] p).getD []) "B" = true ∧
    cartHas ((upsertAll store p [addItem "B" 1, addItem "A" 1] p).getD []) "A" = true ∧
    cartHas ((upsertAll store p [addItem "B" 1, addItem "A" 1] p).getD []) "B" = true := by
  refine ⟨⟨fs, List.Perm.refl fs, rfl⟩, ?_, ?_, ?_, ?_⟩
  all_goals simp only [upsertAll, List.foldl_cons, List.foldl_nil, upsert, if_pos rfl,
    Option.getD_some]
  · exact cartHas_addItem_mono _ _ _ _ (cartHas_addItem_self _ _ _)
  · exact cartHas_addItem_self _ _ _
  · exact cartHas_addItem_self _ _ _
  · exact cartHas_addItem_mono _ _ _ _ (cartHas_addItem_self _ _ _)

/-- Verification rejects any token whose id is in the revocation set, at
every check time. -/
theorem rejects_of_revoked (key now : Nat) (r : Finset Payload) (t : Token)
    (h : t.payload ∈ r) : rejects (verifyTokenR key now r t) = true := by
  unfold verifyTokenR
  split_ifs with h1 h2 <;> rfl

/-- A revoked token id survives every later revocation and every prune
that runs before the token's natural expiry. -/
theorem mem_revRun_of_sweeps_before_expiry (p : Payload) (ops : List RevOp) :
    ∀ r : Finset Payload, p ∈ r →
      (∀ tm, RevOp.sweep tm ∈ ops → tm < p.exp) → p ∈ revRun r ops := by
  induction ops with
  | nil =>
    intro r hp _
    simpa [revRun] using hp
  | cons o rest ih =>
    intro r hp hs
    have h1 : p ∈ revStep r o := by
      cases o with
      | rev t => exact Finset.mem_insert_of_mem hp
      | sweep tm =>
        exact Finset.mem_filter.mpr ⟨hp, hs tm (by simp)⟩
    have h2 := ih (revStep r o) h1 (fun tm htm => hs tm (by simp [htm]))
    simpa [revRun, List.foldl_cons] using h2

/-- Claim C7: once a token is revoked every subsequent verification of it
fails (at every check time, in particular before natural expiry), the
token's id stays in the revocation set across further revocations and
across prunes that run before its natural expiry, and revoke is
idempotent. -/
theorem c7_revocation_terminal_idempotent (key now : Nat) (r : Finset Payload)
    (t : Token) (ops : List RevOp) :
    rejects (verifyTokenR key now (revoke r t) t) = true ∧
    revoke (revoke r t) t = revoke r t ∧
    (t.payload ∈ r → (∀ tm, RevOp.sweep tm ∈ ops → tm < t.payload.exp) →
      rejects (verifyTokenR key now (revRun r ops) t) = true) := by
  refine ⟨rejects_of_revoked key now _ t (Finset.mem_insert_self _ _), ?_, ?_⟩
  · simp [revoke, Finset.insert_idem]
  · intro hm hs
    exact rejects_of_revoked key now _ t
      (mem_revRun_of_sweeps_before_expiry t.payload ops r hm hs)

/-- Claim C7 witness: a token issued at time 0 with ttl 10, revoked and
then surviving a prune at time 5, is still rejected at check time 5,
before its natural expiry. -/
theorem c7_revocation_terminal_idempotent_witness :
    rejects (verifyTokenR 7 5
      (revRun (revoke (∅ : Finset Payload) (issue 7 "u1" 10 0)) [RevOp.sweep 5])
      (issue 7 "u1" 10 0)) = true :=
  (c7_revocation_terminal_idempotent 7 5 (revoke (∅ : Finset Payload) (issue 7 "u1" 10 0))
      (issue 7 "u1" 10 0) [RevOp.sweep 5]).2.2
    (Finset.mem_insert_self _ _)
    (by
      intro tm htm
      simp only [List.mem_singleton, RevOp.sweep.injEq] at htm
      simp [issue, htm])

/-- Claim C8: get on a principal with no entry answers empty rather than
an error (both at the spec-level store contract and on the servlet read
path), and clear followed by get answers empty. -/
theorem c8_get_empty_and_clear_get (store : SessionStore) (p : String) :
    storeGet (storeClear store p) p = none ∧
    (sessionCartGet (storeClear store p) p).1 = [] ∧
    (store p = none → (sessionCartGet store p).1 = []) := by
  have hclear : storeClear store p p = none := by simp [storeClear]
  refine ⟨hclear, ?_, ?_⟩
  · unfold sessionCartGet
    rw [hclear]
  · intro h
    unfold sessionCartGet
    rw [h]

/-- Claim C8 witness at the empty store: a cleared principal reads back
empty, and a principal with no entry reads back empty. -/
theorem c8_get_empty_and_clear_get_witness :
    storeGet (storeClear (fun _ => none) "u1") "u1" = none ∧
    (sessionCartGet (fun _ => none : SessionStore) "u1").1 = [] :=
  ⟨(c8_get_empty_and_clear_get (fun _ => none) "u1").1,
   (c8_get_empty_and_clear_get (fun _ => none) "u1").2.2 rfl⟩

/-- Claim C9 counterexample: on the empty store, a read for a principal
with no entry materializes an empty cart entry for that principal — the
store after the read differs from the store before it, so reads do not
leave the session store unchanged. -/
theorem c9_read_materializes_counterexample :
    ((fun _ => none : SessionStore) "u1" = none) ∧
    ((sessionCartGet (fun _ => none : SessionStore) "u1").2 "u1" = some []) := by
  exact ⟨rfl, rfl⟩

/-- Claim C9 amended: the servlet read path creates a session entry
lazily on first access rather than first write — a read for a principal
with no entry returns the empty cart and materializes an empty entry for
exactly that principal, while a read for a principal with an existing
entry leaves the store entirely unchanged. -/
theorem c9_read_lazy_init (store : SessionStore) (p q : String) (c : List CartItem) :
    (store p = none →
      (sessionCartGet store p).1 = [] ∧
      (sessionCartGet store p).2 p = some [] ∧
      (q ≠ p → (sessionCartGet store p).2 q = store q)) ∧
    (store p = some c → (sessionCartGet store p).2 = store) := by
  constructor
  · intro h
    unfold sessionCartGet
    rw [h]
    refine ⟨rfl, by simp, ?_⟩
    intro hq
    simp [hq]
  · intro h
    unfold sessionCartGet
    rw [h]

/-- Claim C9 amended witness: on the empty store, reading u1's cart
returns empty, creates u1's entry, and leaves u2's absence untouched. -/
theorem c9_read_lazy_init_witness :
    (sessionCartGet (fun _ => none : SessionStore) "u1").1 = [] ∧
    (sessionCartGet (fun _ => none : SessionStore) "u1").2 "u1" = some [] ∧
    (sessionCartGet (fun _ => none : SessionStore) "u1").2 "u2" = none := by
  have h := (c9_read_lazy_init (fun _ => none : SessionStore) "u1" "u2" []).1 rfl
  exact ⟨h.1, h.2.1, h.2.2 (by decide)⟩

/-- Claim C10 counterexample: a request whose Authorization header is
present — the bare scheme value and the empty value — is still rejected
with the no-token 401 response, so absence of the header is not the only
way to receive that rejection, and a present non-Bearer header is not
always forwarded. -/
theorem c10_present_header_rejected_counterexample :
    authMiddleware (some "Bearer ") = MwResult.noToken ∧
    authMiddleware (some "") = MwResult.noToken ∧
    (some "Bearer " : Option String).isSome = true ∧
    (some "" : Option String).isSome = true := by
  refine ⟨?_, rfl, rfl, rfl⟩
  decide

/-- Claim C10 amended: a present Authorization header is forwarded to
verification with only the first occurrence of the substring Bearer
followed by a space removed, wherever that occurrence appears, provided
the stripped value is nonempty; the no-token 401 response occurs exactly
when the header is absent or the stripped value is empty. -/
theorem c10_strip_first_bearer (h : String) :
    (jsReplaceFirst h "Bearer " ≠ "" →
      authMiddleware (some h) = MwResult.proceed (jsReplaceFirst h "Bearer ")) ∧
    (jsReplaceFirst h "Bearer " = "" → authMiddleware (some h) = MwResult.noToken) ∧
    authMiddleware none = MwResult.noToken ∧
    authMiddleware (some "Token abc") = MwResult.proceed "Token abc" ∧
    authMiddleware (some "xxBearer yy") = MwResult.proceed "xxyy" := by
  refine ⟨?_, ?_, rfl, by decide, by decide⟩
  · intro hne
    simp [authMiddleware, hne]
  · intro heq
    simp [authMiddleware, heq]

/-- Claim C10 amended witness: a well-formed bearer header forwards the
stripped token. -/
theorem c10_strip_first_bearer_witness :
    authMiddleware (some "Bearer abc") = MwResult.proceed "abc" := by
  have h := (c10_strip_first_bearer "Bearer abc").1 (by decide)
  rw [h]
  decide
